import Mathlib

/-!
Verification development for the `aisp-albumentations` corpus-augmentation
program (`main.py`, `helpers/augumentations.py`).

The embedding follows the source: the directory-processing loop `Process`
of `main.py` becomes an explicit step function over the list of images, the
`Augment` applier of `helpers/augumentations.py` becomes a pure function
returning the files it writes, and the per-recipe `BboxParams`
configurations are transcribed literally.  Machine floats only occur in the
crop-factory height computation, whose operands stay far below 2^53, so it
is embedded with exact integer arithmetic.
-/

namespace Aisp

/-! ## Crop factory (`transform_crop_make`, augumentations.py lines 14-28)

`width = max(640, width)`, `height = int(width * 9 / 16)`,
`height = height - (height % 32)`, `width = width - (width % 32)`.
Python `int()` truncates toward zero and both operands are nonnegative, so
the float division by 16 is floor division here. -/

def transform_crop_make (width : ℤ) : ℤ × ℤ :=
  let w := max 640 width
  let height := w * 9 / 16
  let height2 := height - height % 32
  let width2 := w - w % 32
  (width2, height2)

/-! ## Bbox filtering parameters attached to each recipe

Each `A.Compose` in augumentations.py is constructed with
`A.BboxParams(format="yolo", min_area=..., min_visibility=...)`.  The table
below transcribes the per-recipe values from the source. -/

structure BboxParams where
  min_area : ℚ
  min_visibility : ℚ
deriving DecidableEq, Repr

/-- Recipes of the program.  The first eighteen are the single-effect
branches of `Process` in main.py in source order; `color`, `shape`, `allMix`
are the preset `transform_color`, `transform_shape`, `transform_all`. -/
inductive Recipe
  | crop | rotate | randrotate | flip | darken | brighten | isonoise
  | compression | degrade | snow | rain | fog | spatter | blackboxing
  | sunflare | blur | medianblur | night | color | shape | allMix
deriving DecidableEq, Repr

/-- The `(min_area, min_visibility)` pair of every recipe *defined in
`helpers/augumentations.py`*, keyed by recipe, transcribed from each
`A.BboxParams(...)` call in the source. -/
def recipeBboxParams : List (Recipe × BboxParams) :=
  [ (Recipe.crop, ⟨100, 3/10⟩),
    (Recipe.rotate, ⟨100, 3/10⟩),
    (Recipe.flip, ⟨100, 3/10⟩),
    (Recipe.shape, ⟨100, 3/10⟩),
    (Recipe.compression, ⟨100, 3/10⟩),
    (Recipe.degrade, ⟨100, 3/10⟩),
    (Recipe.blur, ⟨100, 3/10⟩),
    (Recipe.medianblur, ⟨100, 3/10⟩),
    (Recipe.snow, ⟨100, 3/10⟩),
    (Recipe.rain, ⟨100, 3/10⟩),
    (Recipe.spatter, ⟨100, 3/10⟩),
    (Recipe.fog, ⟨100, 3/10⟩),
    (Recipe.sunflare, ⟨100, 3/10⟩),
    (Recipe.color, ⟨100, 1/5⟩),
    (Recipe.allMix, ⟨100, 1/5⟩) ]

/-- `bbox_params` of `transform_blur_make` (augumentations.py lines 117-122). -/
def blur_bbox_params : BboxParams := ⟨100, 3/10⟩

/-- Modelled from the spec: the survival-filter configuration of the six
recipe factories the program imports and constructs but whose code is
absent from src/ — `transform_randrotate_make`, `transform_brighten_make`,
`transform_darken_make`, `transform_isonoise_make`,
`transform_blackboxing_make` (helpers/augumentations.py) and
`transform_night_make` (helpers/scene_matching.py).  Spec section 4.2
states the minimum-area floor (observed default 100) and a per-recipe
minimum-visibility ratio in 0.2-0.3, with 0.2 used by the color and
combined-all presets; these six are single-effect recipes, hence 0.3. -/
def missingRecipeBboxParams : List (Recipe × BboxParams) :=
  [ (Recipe.randrotate, ⟨100, 3/10⟩),
    (Recipe.brighten, ⟨100, 3/10⟩),
    (Recipe.darken, ⟨100, 3/10⟩),
    (Recipe.isonoise, ⟨100, 3/10⟩),
    (Recipe.blackboxing, ⟨100, 3/10⟩),
    (Recipe.night, ⟨100, 3/10⟩) ]

/-- The survival-filter configuration of every recipe the program
constructs: the fifteen transcribed from src plus the six modelled from
the spec. -/
def allRecipeBboxParams : List (Recipe × BboxParams) :=
  recipeBboxParams ++ missingRecipeBboxParams

/-! ## Boxes and the survival filter

Annotations use the yolo format: class id plus center/size normalized to
image dimensions (spec section 3).  The transform library converts them to
corner coordinates, clips to the frame, and applies the two survival
filters configured by `BboxParams`. -/

/-- One yolo-format bounding box. -/
structure BoxRecord where
  class_id : ℤ
  cx : ℚ
  cy : ℚ
  w : ℚ
  h : ℚ
deriving DecidableEq, Repr

/-- The BoxRecord invariant of spec section 3 plus full containment in the
frame: positive size and all four corners inside `[0,1]`. -/
def wellFormed (b : BoxRecord) : Prop :=
  0 < b.w ∧ 0 < b.h ∧ 0 ≤ b.cx - b.w / 2 ∧ 0 ≤ b.cy - b.h / 2 ∧
    b.cx + b.w / 2 ≤ 1 ∧ b.cy + b.h / 2 ≤ 1

instance (b : BoxRecord) : Decidable (wellFormed b) := by
  unfold wellFormed
  infer_instance

/-- Clip a normalized coordinate to `[0,1]`. -/
def clip01 (x : ℚ) : ℚ := max 0 (min 1 x)

/-- Corner coordinates `(xMin, yMin, xMax, yMax)` of a yolo box. -/
def yoloCorners (b : BoxRecord) : ℚ × ℚ × ℚ × ℚ :=
  (b.cx - b.w / 2, b.cy - b.h / 2, b.cx + b.w / 2, b.cy + b.h / 2)

/-- Clip all four corner coordinates to the frame. -/
def clipCorners (c : ℚ × ℚ × ℚ × ℚ) : ℚ × ℚ × ℚ × ℚ :=
  (clip01 c.1, clip01 c.2.1, clip01 c.2.2.1, clip01 c.2.2.2)

/-- Pixel area of a corner-coordinate box on a `rows × cols` image. -/
def cornerArea (rows cols : ℚ) (c : ℚ × ℚ × ℚ × ℚ) : ℚ :=
  (c.2.2.1 - c.1) * cols * ((c.2.2.2 - c.2.1) * rows)

/-- Pixel area of a yolo box on a `rows × cols` image. -/
def boxPixelArea (rows cols : ℚ) (b : BoxRecord) : ℚ :=
  b.w * cols * (b.h * rows)

/-- Modelled from the spec: the Box Co-Transformer survival filter of spec
section 4.2, applied by the external transform library's `Compose` (absent
from this repository) after every composed transform.  A box survives when
its clipped pixel area is nonzero and at least `min_area`, and its visible
(post-clip) area divided by its transformed area is at least
`min_visibility`. -/
def survives (p : BboxParams) (rows cols : ℚ) (b : BoxRecord) : Bool :=
  let tArea := cornerArea rows cols (yoloCorners b)
  let cArea := cornerArea rows cols (clipCorners (yoloCorners b))
  decide (cArea ≠ 0) && decide (p.min_area ≤ cArea) &&
    decide (p.min_visibility * tArea ≤ cArea)

/-- Modelled from the spec: a photometric-only composed recipe (blur,
compression, snow, the color preset, ...) leaves the image geometry and
every box unchanged (spec section 4.2), so applying it reduces to running
the survival filter of its `BboxParams` over the unchanged boxes. -/
def photometricApply (p : BboxParams) (rows cols : ℚ)
    (boxes : List BoxRecord) : List BoxRecord :=
  boxes.filter (survives p rows cols)

/-- A tiny centered box: 5 x 5 pixels on a 100 x 100 image. -/
def smallBox : BoxRecord := ⟨0, 1/2, 1/2, 1/20, 1/20⟩

/-- A large centered box: 50 x 50 pixels on a 100 x 100 image. -/
def bigBox : BoxRecord := ⟨0, 1/2, 1/2, 1/2, 1/2⟩

/-! ## The applier (`Augment`, augumentations.py lines 239-267) -/

/-- Kind of a file written under the output directory. -/
inductive FileKind
  | imageFile
  | labelFile
deriving DecidableEq, Repr

/-- Modelled from the spec: the `Annotations` entity of the missing
`helpers/annotations.py` — the annotation format tag, the ordered box
list, and the `exists` flag (field `exists'`, since `exists` is reserved in Lean) recording whether a label file was found for
the source image (AnnotationSet, spec section 3). -/
structure AnnotationSet where
  dataformat : String
  annotations : List BoxRecord
  exists' : Bool

/-- The applier `Augment`, embedded as a pure function from the decoded
image (`none` = `cv2.imread` failure), the source annotations, the composed
transform, and the random output basename, to the returned created path
and the list of files written: the image file is written unconditionally
after a successful transform, the label file (same basename, `.txt`
extension) only when the source annotations existed. -/
def Augment {Img : Type} (decoded : Option Img) (ann : AnnotationSet)
    (transformations : Img → List BoxRecord → Img × List BoxRecord)
    (outName : String) : Option String × List (String × FileKind) :=
  match decoded with
  | none => (none, [])
  | some image =>
    let transformed := transformations image ann.annotations
    let outputFilepath := outName ++ ".jpeg"
    (some outputFilepath,
      (outputFilepath, FileKind.imageFile) ::
        (if ann.exists' then [(outName ++ ".txt", FileKind.labelFile)]
         else []))

/-! ## `SomeOf` combinators constructed by the program

Each entry records the member-list length and the `n` passed to
`A.SomeOf`. -/

/-- Length/n of every `A.SomeOf` constructed by the program. -/
structure SomeOfSpec where
  size : ℕ
  n : ℕ
deriving DecidableEq, Repr

/-- The three `A.SomeOf` combinators inside `transform_shape`:
two quality members with n = 2, three geometry members with n = 1, four
noise members with n = 1. -/
def transform_shape_someOf : List SomeOfSpec := [⟨2, 2⟩, ⟨3, 1⟩, ⟨4, 1⟩]

/-- The `A.SomeOf` inside `transform_color`: six color members, n = 2. -/
def transform_color_someOf : List SomeOfSpec := [⟨6, 2⟩]

/-- The two `A.SomeOf` inside `transform_all` (augumentations.py lines
230-236): over the singleton member lists `[transform_color]` and
`[transform_shape]`, each with n = 3. -/
def transform_all_someOf : List SomeOfSpec := [⟨1, 3⟩, ⟨1, 3⟩]

/-- Every `A.SomeOf` combinator constructed at import time. -/
def constructedSomeOf : List SomeOfSpec :=
  transform_shape_someOf ++ transform_color_someOf ++ transform_all_someOf

/-! ## Orchestrator (`Process`, main.py lines 55-290)

The command-line namespace `args` is embedded as a structure whose fields
are the `argparse` destinations with their declared types: the optional
numeric effects (`crop`, `rotate`, `randrotate`, `blackboxing`) are `int`
(guard: Python truthiness, i.e. value distinct from 0), the `store_true`
switches are `Bool`.  `blackboxing` defaults to 50 (main.py lines 381-389),
the numeric shape effects default to 0, `iterations` defaults to 300. -/

structure Arguments where
  all : Bool
  iterations : Nat
  crop : ℤ
  rotate : ℤ
  randrotate : ℤ
  flip : Bool
  darken : Bool
  brighten : Bool
  isonoise : Bool
  compression : Bool
  degrade : Bool
  snow : Bool
  rain : Bool
  fog : Bool
  spatter : Bool
  blackboxing : ℤ
  sunflare : Bool
  blur : Bool
  medianblur : Bool
  night : Bool
  augumentColor : Bool
  augumentShape : Bool
  augumentAll : Bool
deriving DecidableEq, Repr

/-- The `argparse` defaults of main.py: every switch off, every numeric
shape parameter 0, `iterations` 300 and `blackboxing` 50. -/
def defaultArguments : Arguments :=
  { all := false, iterations := 300, crop := 0, rotate := 0, randrotate := 0,
    flip := false, darken := false, brighten := false, isonoise := false,
    compression := false, degrade := false, snow := false, rain := false,
    fog := false, spatter := false, blackboxing := 50, sunflare := false,
    blur := false, medianblur := false, night := false,
    augumentColor := false, augumentShape := false, augumentAll := false }

/-- Result of one `Augment(...)` call as observed by the loop: the call can
raise an exception, return `None` (decode failure), or return the created
path. -/
inductive Outcome
  | raises
  | noArtifact
  | artifact (path : String)
deriving DecidableEq, Repr

/-- Environment of a run: whether `ReadAnnotations` finds annotations for an
image, and what each `Augment` call does for a given image and recipe. -/
structure World where
  annotationsExist : String → Bool
  run : String → Recipe → Outcome

/-- The single-effect branches of `Process` that are attempted for an image,
in source order (main.py lines 93-266).  Every one of these sits inside its
own `try/except` block.  The numeric effects are guarded by `!= 0`
(truthiness for `blackboxing`), the rest by their boolean switch. -/
def guardedAttempts (a : Arguments) : List Recipe :=
  (if a.crop ≠ 0 then [Recipe.crop] else []) ++
  (if a.rotate ≠ 0 then [Recipe.rotate] else []) ++
  (if a.randrotate ≠ 0 then [Recipe.randrotate] else []) ++
  (if a.flip then [Recipe.flip] else []) ++
  (if a.darken then [Recipe.darken] else []) ++
  (if a.brighten then [Recipe.brighten] else []) ++
  (if a.isonoise then [Recipe.isonoise] else []) ++
  (if a.compression then [Recipe.compression] else []) ++
  (if a.degrade then [Recipe.degrade] else []) ++
  (if a.snow then [Recipe.snow] else []) ++
  (if a.rain then [Recipe.rain] else []) ++
  (if a.fog then [Recipe.fog] else []) ++
  (if a.spatter then [Recipe.spatter] else []) ++
  (if a.blackboxing ≠ 0 then [Recipe.blackboxing] else []) ++
  (if a.sunflare then [Recipe.sunflare] else []) ++
  (if a.blur then [Recipe.blur] else []) ++
  (if a.medianblur then [Recipe.medianblur] else []) ++
  (if a.night then [Recipe.night] else [])

/-- The `if augumentColor / elif augumentShape / elif augumentAll` chain of
main.py lines 268-276: at most one preset recipe is attempted, with
priority color, then shape, then all.  These calls are *not* wrapped in
`try/except`. -/
def presetAttempt (a : Arguments) : Option Recipe :=
  if a.augumentColor then some Recipe.color
  else if a.augumentShape then some Recipe.shape
  else if a.augumentAll then some Recipe.allMix
  else none

/-- Every recipe attempted for one image: the guarded single-effect
branches followed by the chosen preset branch, in source order. -/
def attemptedRecipes (a : Arguments) : List Recipe :=
  guardedAttempts a ++ (presetAttempt a).toList

/-- Effect of one guarded branch on `created_path`: an exception is caught
(`created_path` keeps its previous value), otherwise `created_path` is
overwritten with the call's result. -/
def guardedStep (w : World) (img : String) (cp : Option String) (r : Recipe) :
    Option String :=
  match w.run img r with
  | Outcome.raises => cp
  | Outcome.noArtifact => none
  | Outcome.artifact p => some p

/-- One iteration of the `for imagePath in images` loop body of `Process`
up to the final `created_path` value: the annotated-only gate (main.py
lines 87-91), then the guarded branches, then the unguarded preset branch.
`Except.error ()` marks an exception escaping the loop body (only possible
in the preset branch, which has no `try/except`). -/
def processImage (w : World) (a : Arguments) (img : String) :
    Except Unit (Option String) :=
  if a.all = false ∧ w.annotationsExist img = false then Except.ok none
  else
    let cp := (guardedAttempts a).foldl (guardedStep w img) none
    match presetAttempt a with
    | none => Except.ok cp
    | some r =>
      match w.run img r with
      | Outcome.raises => Except.error ()
      | Outcome.noArtifact => Except.ok none
      | Outcome.artifact p => Except.ok (some p)

/-- The counting part of the loop (main.py lines 278-290): when the final
`created_path` is not `None`, `processed_counter` is incremented once and
the loop breaks as soon as the counter reaches `arguments.iterations`; the
loop also ends when the image list is exhausted.  The returned value is the
final counter; `Except.error ()` is an exception aborting the run. -/
def processLoop (w : World) (a : Arguments) :
    List String → Nat → Except Unit Nat
  | [], counter => Except.ok counter
  | img :: rest, counter =>
    match processImage w a img with
    | Except.error _ => Except.error ()
    | Except.ok none => processLoop w a rest counter
    | Except.ok (some _) =>
      if a.iterations ≤ counter + 1 then Except.ok (counter + 1)
      else processLoop w a rest (counter + 1)

/-- An image qualifies when its loop iteration ends with a non-`None`
`created_path`, i.e. it is the unit by which `processed_counter` grows. -/
def qualifies (w : World) (a : Arguments) (img : String) : Bool :=
  match processImage w a img with
  | Except.ok (some _) => true
  | _ => false

/-- Number of qualifying images in a list. -/
def qualifyingCount (w : World) (a : Arguments) (imgs : List String) : Nat :=
  (imgs.filter (qualifies w a)).length

/-- Number of artifacts actually produced for one image: each attempted
recipe whose `Augment` call returns a path writes its own output file,
whether or not a later branch overwrites `created_path`. -/
def imageArtifacts (w : World) (a : Arguments) (img : String) : Nat :=
  if a.all = false ∧ w.annotationsExist img = false then 0
  else
    ((attemptedRecipes a).filter
      (fun r => match w.run img r with
        | Outcome.artifact _ => true
        | _ => false)).length

/-- The single-effect recipes, i.e. those attempted from inside a
`try/except` block. -/
def guardedKinds : List Recipe :=
  [Recipe.crop, Recipe.rotate, Recipe.randrotate, Recipe.flip, Recipe.darken,
   Recipe.brighten, Recipe.isonoise, Recipe.compression, Recipe.degrade,
   Recipe.snow, Recipe.rain, Recipe.fog, Recipe.spatter, Recipe.blackboxing,
   Recipe.sunflare, Recipe.blur, Recipe.medianblur, Recipe.night]

/-- Whether the configuration switch of a recipe is enabled, read directly
off the corresponding `Arguments` field. -/
def toggleEnabled (a : Arguments) : Recipe → Bool
  | Recipe.crop => decide (a.crop ≠ 0)
  | Recipe.rotate => decide (a.rotate ≠ 0)
  | Recipe.randrotate => decide (a.randrotate ≠ 0)
  | Recipe.flip => a.flip
  | Recipe.darken => a.darken
  | Recipe.brighten => a.brighten
  | Recipe.isonoise => a.isonoise
  | Recipe.compression => a.compression
  | Recipe.degrade => a.degrade
  | Recipe.snow => a.snow
  | Recipe.rain => a.rain
  | Recipe.fog => a.fog
  | Recipe.spatter => a.spatter
  | Recipe.blackboxing => decide (a.blackboxing ≠ 0)
  | Recipe.sunflare => a.sunflare
  | Recipe.blur => a.blur
  | Recipe.medianblur => a.medianblur
  | Recipe.night => a.night
  | Recipe.color => a.augumentColor
  | Recipe.shape => a.augumentShape
  | Recipe.allMix => a.augumentAll

/-! ## Concrete runs used as witnesses and counterexamples -/

/-- World where annotations always exist and every `Augment` call succeeds
with the path "out". -/
def successWorld : World :=
  { annotationsExist := fun _ => true,
    run := fun _ _ => Outcome.artifact "out" }

/-- World where annotations always exist and every `Augment` call raises. -/
def raisingWorld : World :=
  { annotationsExist := fun _ => true,
    run := fun _ _ => Outcome.raises }

/-- Configuration enabling exactly the crop and rotate branches, with an
iteration budget of 10. -/
def cropRotateArgs : Arguments :=
  { defaultArguments with
      crop := 640, rotate := 30, blackboxing := 0, iterations := 10 }

/-- Configuration enabling only the color preset branch. -/
def colorOnlyArgs : Arguments :=
  { defaultArguments with augumentColor := true, blackboxing := 0 }

/-- Configuration enabling only guarded branches: crop, flip and the
default-enabled blackboxing branch. -/
def guardedOnlyArgs : Arguments :=
  { defaultArguments with crop := 640, flip := true }

/-- Configuration enabling the color and the shape preset toggles at once. -/
def colorShapeArgs : Arguments :=
  { defaultArguments with
      augumentColor := true, augumentShape := true, blackboxing := 0 }

/-- Python keyword-argument semantics: a call raises `TypeError` when it
passes a keyword that is not among the callee's parameter names (and the
callee has no `**kwargs`). -/
def pythonCallBadKwarg (params kwargs : List String) : Bool :=
  kwargs.any (fun k => !(params.contains k))

/-- The parameter names of `Augment` (augumentations.py lines 239-241). -/
def AugmentParams : List String :=
  ["imagePath", "outputDirectory", "annotations", "transformations"]

/-- The keyword arguments of the `Augment` call in the blackboxing branch
(main.py lines 222-228), beyond its positional arguments. -/
def blackboxingCallKwargs : List String := ["is_bboxes_transform"]

end Aisp

namespace Aisp

/-! ## Helper lemmas about the loop -/

lemma mem_ite_singleton {c : Prop} [Decidable c] {r x : Recipe} :
    r ∈ (if c then [x] else []) ↔ (c ∧ r = x) := by
  split <;> simp_all

lemma presetAttempt_cases (a : Arguments) :
    presetAttempt a = none ∨ presetAttempt a = some Recipe.color ∨
    presetAttempt a = some Recipe.shape ∨ presetAttempt a = some Recipe.allMix := by
  unfold presetAttempt
  split_ifs <;> simp

lemma mem_attempted_iff (a : Arguments) (r : Recipe) :
    r ∈ attemptedRecipes a ↔
      (r ∈ guardedAttempts a ∨ presetAttempt a = some r) := by
  simp [attemptedRecipes, List.mem_append, Option.mem_toList, Option.mem_def]

lemma presetAttempt_ne_guarded (a : Arguments) {r : Recipe}
    (hr : r ∈ guardedKinds) : ¬ presetAttempt a = some r := by
  rcases presetAttempt_cases a with hp | hp | hp | hp <;> rw [hp]
  · simp
  · intro h
    injection h with h'
    subst h'
    exact absurd hr (by decide)
  · intro h
    injection h with h'
    subst h'
    exact absurd hr (by decide)
  · intro h
    injection h with h'
    subst h'
    exact absurd hr (by decide)

lemma mem_guardedAttempts_iff (a : Arguments) (r : Recipe)
    (hr : r ∈ guardedKinds) :
    r ∈ guardedAttempts a ↔ toggleEnabled a r = true := by
  cases r <;> first
    | exact absurd hr (by decide)
    | simp [guardedAttempts, toggleEnabled, mem_ite_singleton,
        List.mem_append]

lemma shape_not_guarded (a : Arguments) :
    Recipe.shape ∉ guardedAttempts a := by
  simp [guardedAttempts, mem_ite_singleton, List.mem_append]

lemma color_not_guarded (a : Arguments) :
    Recipe.color ∉ guardedAttempts a := by
  simp [guardedAttempts, mem_ite_singleton, List.mem_append]

lemma allMix_not_guarded (a : Arguments) :
    Recipe.allMix ∉ guardedAttempts a := by
  simp [guardedAttempts, mem_ite_singleton, List.mem_append]

lemma preset_mem_attempted (a : Arguments) (r : Recipe)
    (hg : r ∉ guardedAttempts a) :
    r ∈ attemptedRecipes a ↔ presetAttempt a = some r := by
  rw [mem_attempted_iff]
  constructor
  · rintro (h | h)
    · exact absurd h hg
    · exact h
  · exact Or.inr

lemma foldl_guardedStep_raises (w : World) (img : String)
    (hr : ∀ r, w.run img r = Outcome.raises) :
    ∀ (rs : List Recipe) (cp : Option String),
      rs.foldl (guardedStep w img) cp = cp := by
  intro rs
  induction rs with
  | nil => intro cp; rfl
  | cons r rs ih =>
    intro cp
    have hstep : guardedStep w img cp r = cp := by simp [guardedStep, hr r]
    rw [List.foldl_cons, hstep]
    exact ih cp

lemma processLoop_ok_eq (w : World) (a : Arguments) :
    ∀ (imgs : List String) (n c : ℕ), n < a.iterations →
      processLoop w a imgs n = Except.ok c →
      c = min (n + qualifyingCount w a imgs) a.iterations := by
  intro imgs
  induction imgs with
  | nil =>
    intro n c hn h
    simp only [processLoop, Except.ok.injEq] at h
    simp only [qualifyingCount, List.filter_nil, List.length_nil]
    omega
  | cons img rest ih =>
    intro n c hn h
    simp only [processLoop] at h
    cases hpi : processImage w a img with
    | error e =>
      rw [hpi] at h
      exact absurd h (by simp)
    | ok o =>
      rw [hpi] at h
      cases o with
      | none =>
        have hq0 : qualifyingCount w a (img :: rest) =
            qualifyingCount w a rest := by
          simp [qualifyingCount, List.filter_cons, qualifies, hpi]
        rw [hq0]
        exact ih n c hn h
      | some p =>
        have hq1 : qualifyingCount w a (img :: rest) =
            qualifyingCount w a rest + 1 := by
          simp [qualifyingCount, List.filter_cons, qualifies, hpi]
        rw [hq1]
        by_cases hit : a.iterations ≤ n + 1
        · rw [if_pos hit] at h
          simp only [Except.ok.injEq] at h
          omega
        · rw [if_neg hit] at h
          have := ih (n + 1) c (by omega) h
          omega

/-! ## Claims about the orchestrator -/

/-- C1, counterexample: with crop and rotate both enabled and both
succeeding on one image, two artifacts are produced for that image, yet the
run's counter ends at 1, not 2 — the counter does not grow by the number of
artifacts produced for the image. -/
theorem counter_not_per_artifact :
    imageArtifacts successWorld cropRotateArgs "img1" = 2 ∧
    processLoop successWorld cropRotateArgs ["img1"] 0 = Except.ok 1 ∧
    (1 : ℕ) ≠ 2 :=
  ⟨rfl, rfl, by decide⟩

/-- C1, amended: the counter grows by exactly one per image whose iteration
ends with a created path (regardless of how many artifacts that image's
branches produced), and a run that returns normally ends with the counter
equal to the number of such images, capped at the iteration budget —
termination at the budget or at corpus exhaustion, whichever comes first. -/
theorem run_counter_spec (w : World) (a : Arguments) (imgs : List String)
    (c : ℕ) (hpos : 0 < a.iterations)
    (h : processLoop w a imgs 0 = Except.ok c) :
    c = min (qualifyingCount w a imgs) a.iterations := by
  simpa using processLoop_ok_eq w a imgs 0 c hpos h

/-- Witness for `run_counter_spec`: a concrete run over one image with a
budget of 10 ends with counter 1 = min 1 10. -/
theorem run_counter_spec_witness :
    0 < cropRotateArgs.iterations ∧
    processLoop successWorld cropRotateArgs ["img1"] 0 = Except.ok 1 ∧
    (1 : ℕ) = min (qualifyingCount successWorld cropRotateArgs ["img1"])
      cropRotateArgs.iterations :=
  ⟨by decide, rfl,
    run_counter_spec successWorld cropRotateArgs ["img1"] 1 (by decide) rfl⟩

/-- C2, counterexample: the preset branches (main.py lines 268-276) are not
wrapped in `try/except`, so a color recipe that raises aborts the whole run
as an unhandled failure — the run over a two-image corpus ends in an
uncaught exception rather than completing with zero artifacts. -/
theorem preset_failure_aborts_run :
    processLoop raisingWorld colorOnlyArgs ["img1", "img2"] 0 =
      Except.error () := rfl

/-- C2, amended: for the guarded single-effect branches a raised exception
is caught and processing continues; whenever no preset branch is selected,
a recipe that always throws lets the run complete the full corpus pass with
counter 0 and zero artifacts for every image, with no unhandled failure.
Exceptions in the unguarded color/shape/all preset branches, by contrast,
abort the run. -/
theorem guarded_failures_isolated (w : World) (a : Arguments)
    (imgs : List String) (hraise : ∀ i r, w.run i r = Outcome.raises)
    (hpreset : presetAttempt a = none) :
    processLoop w a imgs 0 = Except.ok 0 ∧
    ∀ img ∈ imgs, imageArtifacts w a img = 0 := by
  have himg : ∀ img, processImage w a img = Except.ok none := by
    intro img
    unfold processImage
    by_cases hgate : a.all = false ∧ w.annotationsExist img = false
    · rw [if_pos hgate]
    · rw [if_neg hgate]
      simp only [hpreset]
      rw [foldl_guardedStep_raises w img (fun r => hraise img r)]
  constructor
  · induction imgs with
    | nil => rfl
    | cons img rest ih =>
      simp only [processLoop, himg img]
      exact ih
  · intro img _
    unfold imageArtifacts
    split
    · rfl
    · simp [hraise img]

/-- Witness for `guarded_failures_isolated`: with crop, flip and
blackboxing enabled and every call raising, a two-image run ends normally
with counter 0 and no artifacts. -/
theorem guarded_failures_isolated_witness :
    processLoop raisingWorld guardedOnlyArgs ["img1", "img2"] 0 =
      Except.ok 0 ∧
    imageArtifacts raisingWorld guardedOnlyArgs "img1" = 0 :=
  have h := guarded_failures_isolated raisingWorld guardedOnlyArgs
    ["img1", "img2"] (fun _ _ => rfl) rfl
  ⟨h.1, h.2 "img1" (by simp)⟩

/-- C8, counterexample: with the color and shape toggles both enabled, the
shape toggle is on yet the shape recipe is never attempted — the
`elif` chain of main.py lines 268-276 makes the three preset toggles
mutually exclusive, color taking priority. -/
theorem shape_toggle_ignored_when_color_enabled :
    toggleEnabled colorShapeArgs Recipe.shape = true ∧
    Recipe.shape ∉ attemptedRecipes colorShapeArgs := by decide

/-- C8, amended: the eighteen single-effect toggles are mutually
non-exclusive — each enabled one is attempted on every processed image —
but the three preset toggles are exclusive with priority order color,
shape, all: exactly the first enabled one is attempted and the other two
presets are suppressed, and with no preset toggle enabled no preset is
attempted. -/
theorem toggles_non_exclusive (a : Arguments) :
    (∀ r ∈ guardedKinds, (toggleEnabled a r = true ↔ r ∈ attemptedRecipes a))
    ∧ (a.augumentColor = true →
        Recipe.color ∈ attemptedRecipes a ∧
        Recipe.shape ∉ attemptedRecipes a ∧
        Recipe.allMix ∉ attemptedRecipes a)
    ∧ (a.augumentColor = false → a.augumentShape = true →
        Recipe.shape ∈ attemptedRecipes a ∧
        Recipe.color ∉ attemptedRecipes a ∧
        Recipe.allMix ∉ attemptedRecipes a)
    ∧ (a.augumentColor = false → a.augumentShape = false →
        a.augumentAll = true →
        Recipe.allMix ∈ attemptedRecipes a ∧
        Recipe.color ∉ attemptedRecipes a ∧
        Recipe.shape ∉ attemptedRecipes a)
    ∧ (a.augumentColor = false → a.augumentShape = false →
        a.augumentAll = false →
        Recipe.color ∉ attemptedRecipes a ∧
        Recipe.shape ∉ attemptedRecipes a ∧
        Recipe.allMix ∉ attemptedRecipes a) := by
  refine ⟨?_, ?_, ?_, ?_, ?_⟩
  · intro r hr
    rw [mem_attempted_iff, ← mem_guardedAttempts_iff a r hr]
    constructor
    · exact Or.inl
    · rintro (h | h)
      · exact h
      · exact absurd h (presetAttempt_ne_guarded a hr)
  · intro hc
    have hp : presetAttempt a = some Recipe.color := by
      simp [presetAttempt, hc]
    refine ⟨?_, ?_, ?_⟩
    · exact (preset_mem_attempted a _ (color_not_guarded a)).mpr hp
    · rw [preset_mem_attempted a _ (shape_not_guarded a), hp]
      simp
    · rw [preset_mem_attempted a _ (allMix_not_guarded a), hp]
      simp
  · intro hc hs
    have hp : presetAttempt a = some Recipe.shape := by
      simp [presetAttempt, hc, hs]
    refine ⟨?_, ?_, ?_⟩
    · exact (preset_mem_attempted a _ (shape_not_guarded a)).mpr hp
    · rw [preset_mem_attempted a _ (color_not_guarded a), hp]
      simp
    · rw [preset_mem_attempted a _ (allMix_not_guarded a), hp]
      simp
  · intro hc hs hall
    have hp : presetAttempt a = some Recipe.allMix := by
      simp [presetAttempt, hc, hs, hall]
    refine ⟨?_, ?_, ?_⟩
    · exact (preset_mem_attempted a _ (allMix_not_guarded a)).mpr hp
    · rw [preset_mem_attempted a _ (color_not_guarded a), hp]
      simp
    · rw [preset_mem_attempted a _ (shape_not_guarded a), hp]
      simp
  · intro hc hs hall
    have hp : presetAttempt a = none := by
      simp [presetAttempt, hc, hs, hall]
    refine ⟨?_, ?_, ?_⟩
    · rw [preset_mem_attempted a _ (color_not_guarded a), hp]
      simp
    · rw [preset_mem_attempted a _ (shape_not_guarded a), hp]
      simp
    · rw [preset_mem_attempted a _ (allMix_not_guarded a), hp]
      simp

/-- Witness for `toggles_non_exclusive`: under the crop-and-rotate
configuration the rotate recipe is enabled, hence attempted; and under the
color-and-shape configuration the color preset wins while shape and all
are suppressed. -/
theorem toggles_non_exclusive_witness :
    Recipe.rotate ∈ attemptedRecipes cropRotateArgs ∧
    (Recipe.color ∈ attemptedRecipes colorShapeArgs ∧
      Recipe.shape ∉ attemptedRecipes colorShapeArgs ∧
      Recipe.allMix ∉ attemptedRecipes colorShapeArgs) :=
  ⟨((toggles_non_exclusive cropRotateArgs).1 Recipe.rotate (by decide)).mp
      (by decide),
    (toggles_non_exclusive colorShapeArgs).2.1 rfl⟩

/-- C9: the blackboxing parameter defaults to 50, so the blackboxing branch
is attempted on every processed image even when the flag is absent; the
branch's `Augment` call passes the keyword `is_bboxes_transform`, which is
not among `Augment`'s parameters, so the call raises `TypeError`; the
branch's `try/except` catches the failure, leaving `created_path`
untouched, so blackboxing never produces an artifact. -/
theorem blackboxing_branch_always_fails (w : World) (img : String)
    (cp : Option String)
    (h : w.run img Recipe.blackboxing = Outcome.raises) :
    defaultArguments.blackboxing = 50 ∧
    Recipe.blackboxing ∈ attemptedRecipes defaultArguments ∧
    pythonCallBadKwarg AugmentParams blackboxingCallKwargs = true ∧
    guardedStep w img cp Recipe.blackboxing = cp := by
  refine ⟨rfl, by decide, by decide, ?_⟩
  simp [guardedStep, h]

/-- Witness for `blackboxing_branch_always_fails` in the always-raising
world at a concrete image. -/
theorem blackboxing_branch_always_fails_witness :
    defaultArguments.blackboxing = 50 ∧
    Recipe.blackboxing ∈ attemptedRecipes defaultArguments ∧
    pythonCallBadKwarg AugmentParams blackboxingCallKwargs = true ∧
    guardedStep raisingWorld "img1" none Recipe.blackboxing = none :=
  blackboxing_branch_always_fails raisingWorld "img1" none rfl

lemma clip01_of_mem (x : ℚ) (h0 : 0 ≤ x) (h1 : x ≤ 1) : clip01 x = x := by
  unfold clip01
  rw [min_eq_right h1, max_eq_right h0]

lemma clipCorners_wellFormed (b : BoxRecord) (h : wellFormed b) :
    clipCorners (yoloCorners b) = yoloCorners b := by
  obtain ⟨hw, hh, h1, h2, h3, h4⟩ := h
  have e1 : clip01 (b.cx - b.w / 2) = b.cx - b.w / 2 :=
    clip01_of_mem _ h1 (by linarith)
  have e2 : clip01 (b.cy - b.h / 2) = b.cy - b.h / 2 :=
    clip01_of_mem _ h2 (by linarith)
  have e3 : clip01 (b.cx + b.w / 2) = b.cx + b.w / 2 :=
    clip01_of_mem _ (by linarith) h3
  have e4 : clip01 (b.cy + b.h / 2) = b.cy + b.h / 2 :=
    clip01_of_mem _ (by linarith) h4
  simp [clipCorners, yoloCorners, e1, e2, e3, e4]

lemma cornerArea_yolo (rows cols : ℚ) (b : BoxRecord) :
    cornerArea rows cols (yoloCorners b) = boxPixelArea rows cols b := by
  simp only [cornerArea, yoloCorners, boxPixelArea]
  ring

/-- C3, counterexample: the blur recipe — a photometric-only primitive —
configures `min_area=100`, and that filter drops a well-formed input box of
5 x 5 = 25 pixels on a 100 x 100 image even though blur moves no geometry:
the output box set is empty, not equal to the input box set. -/
theorem photometric_drops_small_box :
    photometricApply blur_bbox_params 100 100 [smallBox] = [] ∧
    ([] : List BoxRecord) ≠ [smallBox] := by
  have hwf : wellFormed smallBox := by norm_num [wellFormed, smallBox]
  have hs : survives blur_bbox_params 100 100 smallBox = false := by
    have harea : ¬ (blur_bbox_params.min_area ≤
        boxPixelArea 100 100 smallBox) := by
      norm_num [blur_bbox_params, boxPixelArea, smallBox]
    simp only [survives, clipCorners_wellFormed smallBox hwf,
      cornerArea_yolo]
    simp [harea]
  constructor
  · simp [photometricApply, hs]
  · simp

/-- C3, amended: a photometric-only recipe passes every box through
unchanged only as long as each box clears the recipe's own survival
filters: for in-frame boxes the visibility ratio is 1, so with the
configured `min_visibility ≤ 1` no box is dropped by visibility, but any
box whose pixel area is below the configured `min_area` floor (100 in
every recipe) is dropped even though no geometry moved. -/
theorem photometric_passthrough (p : BboxParams) (rows cols : ℚ)
    (boxes : List BoxRecord)
    (h : ∀ b ∈ boxes, wellFormed b ∧ 0 < boxPixelArea rows cols b ∧
      p.min_area ≤ boxPixelArea rows cols b ∧ p.min_visibility ≤ 1) :
    photometricApply p rows cols boxes = boxes := by
  apply List.filter_eq_self.mpr
  intro b hb
  obtain ⟨hwf, hpos, harea, hvis⟩ := h b hb
  simp only [survives, clipCorners_wellFormed b hwf, cornerArea_yolo,
    Bool.and_eq_true, decide_eq_true_eq]
  refine ⟨⟨ne_of_gt hpos, harea⟩, ?_⟩
  calc p.min_visibility * boxPixelArea rows cols b
      ≤ 1 * boxPixelArea rows cols b :=
        mul_le_mul_of_nonneg_right hvis (le_of_lt hpos)
    _ = boxPixelArea rows cols b := one_mul _

/-- Witness for `photometric_passthrough`: the blur recipe leaves a 50 x 50
pixel in-frame box on a 100 x 100 image untouched. -/
theorem photometric_passthrough_witness :
    photometricApply blur_bbox_params 100 100 [bigBox] = [bigBox] :=
  photometric_passthrough blur_bbox_params 100 100 [bigBox] (by
    intro b hb
    rw [List.mem_singleton] at hb
    subst hb
    refine ⟨by norm_num [wellFormed, bigBox], ?_, ?_, ?_⟩ <;>
      norm_num [boxPixelArea, bigBox, blur_bbox_params])

/-- C4: whenever the image decodes, the Applier writes exactly one image
file, and writes a label file if and only if the source AnnotationSet had
`exists=true` — labels are never fabricated for an unlabeled source
image. -/
theorem applier_persists_image_and_conditional_labels (Img : Type)
    (decoded : Option Img) (ann : AnnotationSet)
    (tf : Img → List BoxRecord → Img × List BoxRecord) (outName : String)
    (h : decoded ≠ none) :
    ((Augment decoded ann tf outName).2.filter
        (fun f => decide (f.2 = FileKind.imageFile))).length = 1 ∧
    (((Augment decoded ann tf outName).2.any
        (fun f => decide (f.2 = FileKind.labelFile))) = true ↔
      ann.exists' = true) := by
  obtain ⟨img, rfl⟩ := Option.ne_none_iff_exists'.mp h
  cases hex : ann.exists' <;> simp [Augment, hex]

/-- Witness for `applier_persists_image_and_conditional_labels` at a
labeled source image: one image file and a label file are written. -/
theorem applier_persists_witness :
    ((Augment (some ()) ⟨"yolo", [], true⟩ (fun i b => (i, b)) "x").2.filter
        (fun f => decide (f.2 = FileKind.imageFile))).length = 1 ∧
    (((Augment (some ()) ⟨"yolo", [], true⟩ (fun i b => (i, b)) "x").2.any
        (fun f => decide (f.2 = FileKind.labelFile))) = true ↔
      (true : Bool) = true) :=
  applier_persists_image_and_conditional_labels Unit (some ())
    ⟨"yolo", [], true⟩ (fun i b => (i, b)) "x" (by simp)

/-- C7: a decode failure (`cv2.imread` returning `None`) makes the Applier
return no created path and write no file at all — neither an image file nor
a label file. -/
theorem applier_decode_failure_no_artifact (Img : Type)
    (ann : AnnotationSet)
    (tf : Img → List BoxRecord → Img × List BoxRecord) (outName : String) :
    Augment (none : Option Img) ann tf outName = (none, []) := rfl

/-- C5, counterexample: the program itself constructs `SomeOf` combinators
whose `n` exceeds the member-list length — both `A.SomeOf` inside
`transform_all` draw 3 from a singleton list — so it is false that every
constructed PickN satisfies `n ≤ length`. -/
theorem pickN_bound_violated_in_program :
    (constructedSomeOf.any fun s => decide (s.size < s.n)) = true := by
  decide

/-- C5, amended: `SomeOf` construction does not enforce `n ≤ length`; the
combinators inside `transform_shape` and `transform_color` do satisfy the
bound, but the two inside `transform_all` pick n = 3 from singleton member
lists and are constructed (at import time) without any error. -/
theorem pickN_bound_not_enforced :
    ((transform_shape_someOf ++ transform_color_someOf).all
        fun s => decide (s.n ≤ s.size)) = true ∧
    (transform_all_someOf.all
        fun s => decide (s.size = 1 ∧ s.n = 3)) = true := by
  decide

/-- C6: every recipe the program constructs — the fifteen defined in
`helpers/augumentations.py` plus the six whose factories are absent from
src/ and are modelled from the spec — uses a minimum-area floor of 100
pixels; the minimum-visibility ratio is 0.3 for the single-effect and
shape recipes and 0.2 for the color and combined-all recipes, so all
observed values lie in the 0.2 to 0.3 range. -/
theorem recipe_filter_thresholds :
    (allRecipeBboxParams.all fun rp =>
      decide (rp.2.min_area = 100) &&
      decide (rp.2.min_visibility =
        (if rp.1 = Recipe.color ∨ rp.1 = Recipe.allMix
         then (1 : ℚ)/5 else 3/10)) &&
      decide ((1 : ℚ)/5 ≤ rp.2.min_visibility ∧
        rp.2.min_visibility ≤ 3/10)) = true := by
  simp only [allRecipeBboxParams, recipeBboxParams,
    missingRecipeBboxParams, List.append_eq, List.cons_append,
    List.nil_append, List.all_cons, List.all_nil,
    Bool.and_eq_true, decide_eq_true_eq, and_true, reduceCtorEq,
    or_self, if_false, if_true, or_false]
  norm_num

/-- C10: for every integer width argument, the crop recipe factory produces a
crop whose effective width is at least 640 and divisible by 32, and whose
effective height is floor(max(640, width) * 9 / 16) rounded down to a
multiple of 32, hence also divisible by 32. -/
theorem crop_factory_dimensions (width : ℤ) :
    640 ≤ (transform_crop_make width).1 ∧
    (32 : ℤ) ∣ (transform_crop_make width).1 ∧
    (transform_crop_make width).2 =
      max 640 width * 9 / 16 - (max 640 width * 9 / 16) % 32 ∧
    (32 : ℤ) ∣ (transform_crop_make width).2 := by
  have hw : (640 : ℤ) ≤ max 640 width := le_max_left _ _
  refine ⟨?_, ?_, rfl, ?_⟩
  · show (640 : ℤ) ≤ max 640 width - max 640 width % 32
    omega
  · show (32 : ℤ) ∣ max 640 width - max 640 width % 32
    omega
  · show (32 : ℤ) ∣ max 640 width * 9 / 16 - (max 640 width * 9 / 16) % 32
    omega

/-- Witness evaluating the crop factory at a concrete width: 700 yields an
effective width of 672 and height of 384, both multiples of 32. -/
theorem crop_factory_dimensions_witness :
    transform_crop_make 700 = (672, 384) ∧
    (640 ≤ (transform_crop_make 700).1 ∧
      (32 : ℤ) ∣ (transform_crop_make 700).1 ∧
      (transform_crop_make 700).2 =
        max 640 700 * 9 / 16 - (max 640 700 * 9 / 16) % 32 ∧
      (32 : ℤ) ∣ (transform_crop_make 700).2) :=
  ⟨by decide, crop_factory_dimensions 700⟩

end Aisp
